import Mathlib

/-!
# Verification of the Upstox intraday trading agent

Shallow embedding of the risk-management and orchestration logic of the
`Upstox-Trading-AI` repository (files `risk_manager.py` and
`trading_agent.py`), together with theorems settling the specification
claims about them.

Python floats are modelled as rationals (`ℚ`), dictionaries with optional
fields as structures of `Option`-typed fields, and Python exceptions as an
`Except` result.
-/

namespace Upstox

/-- Risk-management configuration, from `RiskManager.__init__`
(`risk_manager.py`, lines 24-33). Only the parameters the claims touch are
kept; each corresponds to one `config.get(...)` read. -/
structure RiskConfig where
  max_position_size : ℚ
  min_confidence_threshold : ℚ
  max_trades_per_day : ℕ
  max_daily_loss_pct : ℚ
deriving Repr

/-- Mutable state of the `RiskManager` (`risk_manager.py`, lines 34-37). -/
structure RiskState where
  trades_today : ℕ
  daily_pnl : ℚ
  is_trading_halted : Bool
deriving Repr, DecidableEq

/-- The decision dictionary produced by the LLM, as read by
`validate_decision` and `make_decision`.  Each field is `Option`-typed
because the Python code accesses it with `dict.get`; `extra_keys` counts
whatever other entries the dictionary holds, which matters only for Python
truthiness (`if llm_decision:`). -/
structure LLMDecision where
  action : Option String
  confidence_score : Option ℚ
  quantity : Option ℤ
  current_price : Option ℚ
  extra_keys : ℕ
deriving Repr, DecidableEq

/-- Python truthiness of the decision dictionary: an empty dict is falsy. -/
def LLMDecision.isTruthy (d : LLMDecision) : Bool :=
  d.action.isSome || d.confidence_score.isSome || d.quantity.isSome ||
    d.current_price.isSome || decide (d.extra_keys ≠ 0)

/-- The portfolio dictionary; `validate_decision` reads
`portfolio.get('available_margin', 0)` (unused by any rule). -/
structure Portfolio where
  available_margin : Option ℚ
deriving Repr

/-- `RiskManager.validate_decision` (`risk_manager.py`, lines 41-87).
Returns the approval boolean together with the risk state after the call
(the Python method mutates `self.trades_today` in its final branch). -/
def validate_decision (rm : RiskConfig) (s : RiskState)
    (llm_decision : LLMDecision) (portfolio : Portfolio)
    (current_price : ℚ) : Bool × RiskState :=
  let action := llm_decision.action
  let confidence := llm_decision.confidence_score.getD 0
  let _quantity := llm_decision.quantity.getD 0
  let _available_margin := portfolio.available_margin.getD 0
  let _ := current_price
  -- Rule 0: On 'HOLD'
  if action = some "HOLD" then (false, s)
  -- Rule 1: trading halted by the daily-loss circuit breaker
  else if s.is_trading_halted then (false, s)
  -- Rule 2: max trades for the day reached
  else if s.trades_today ≥ rm.max_trades_per_day then (false, s)
  -- Rule 3: LLM confidence below threshold
  else if confidence < rm.min_confidence_threshold then (false, s)
  -- 'SELL' (to close positions)
  else if action = some "SELL" then (true, s)
  -- all checks passed: approve and count the trade
  else (true, { s with trades_today := s.trades_today + 1 })

/-- `RiskManager.calculate_quantity` (`risk_manager.py`, lines 89-103).
The method reads `self.max_position_size` and writes nothing, so the
embedding threads the risk state through unchanged; `int(a // p)` on a
positive float `p` is the floor of the quotient. -/
def calculate_quantity (rm : RiskConfig) (s : RiskState) (price : ℚ) :
    ℤ × RiskState :=
  if price ≤ 0 then (0, s)
  else (⌊rm.max_position_size / price⌋, s)

/-- `RiskManager.update_pnl` (`risk_manager.py`, lines 105-123). -/
def update_pnl (rm : RiskConfig) (s : RiskState) (pnl starting_capital : ℚ) :
    RiskState :=
  let daily_pnl := s.daily_pnl + pnl
  let max_loss_amount := starting_capital * rm.max_daily_loss_pct
  if daily_pnl < -max_loss_amount then
    { s with daily_pnl := daily_pnl, is_trading_halted := true }
  else
    { s with daily_pnl := daily_pnl }

/-! ## Orchestrator (`trading_agent.py`) -/

/-- A Python runtime error raised while handling a decision.
`attributeError` models `None.get(...)` (`'NoneType' object has no
attribute 'get'`). -/
inductive PyError where
  | attributeError
deriving Repr, DecidableEq

/-- Did `TradingAgent.execute_trade` (`trading_agent.py`, lines 211-247)
submit an order to the brokerage?  It dispatches on the action (only
`'BUY'` and `'SELL'` place orders) and `execute_buy`/`execute_sell`
bail out on a falsy price. -/
def execute_trade (action : Option String) (price : ℚ) : Bool :=
  if action = some "BUY" then decide (price ≠ 0)
  else if action = some "SELL" then decide (price ≠ 0)
  else false

/-- The decision-handling tail of one instrument iteration of
`TradingAgent.make_decision` (`trading_agent.py`, lines 174-200), starting
from `llm_decision = llm_json['response']`.  Returns the risk state after
the iteration and whether an order was submitted, or the Python exception
that aborts the cycle.

Line by line:
* lines 187-189: `if not llm_decision or 'action' not in llm_decision:`
  logs and then executes `pass` — a no-op, so control falls through;
* line 191: `action = llm_decision.get('action')` raises `AttributeError`
  when `llm_decision` is `None`;
* line 197: `if llm_decision and self.risk_manager.validate_decision(...)`
  — an empty dict is falsy, short-circuiting before validation;
* lines 198-200: `if current_price:` gates execution after validation. -/
def process_llm_decision (rm : RiskConfig) (s : RiskState)
    (llm_decision : Option LLMDecision) (portfolio : Portfolio) :
    Except PyError (RiskState × Bool) :=
  match llm_decision with
  | none => .error .attributeError
  | some d =>
    let current_price := d.current_price.getD 0
    if d.isTruthy then
      let r := validate_decision rm s d portfolio current_price
      if r.1 then
        if current_price ≠ 0 then
          .ok (r.2, execute_trade d.action current_price)
        else .ok (r.2, false)
      else .ok (r.2, false)
    else .ok (s, false)

/-- Scheduler-relevant state of the `TradingAgent`
(`trading_agent.py`, lines 52-53 and the flags the EOD path touches). -/
structure AgentState where
  is_eod_squaring_off : Bool
  timer_scheduled : Bool
  positions_exited : Bool
  stopped : Bool
deriving Repr, DecidableEq

/-- `TradingAgent.square_off_all_positions` (`trading_agent.py`,
lines 283-291): sets the EOD latch, cancels the timer, exits all
positions and calls `stop`. -/
def square_off_all_positions (st : AgentState) : AgentState :=
  { st with is_eod_squaring_off := true, timer_scheduled := false,
            positions_exited := true, stopped := true }

/-- `TradingAgent._start_decision_timer` (`trading_agent.py`,
lines 78-85): cancels any pending timer, then schedules a new one only
when the EOD latch is not set. -/
def start_decision_timer (st : AgentState) : AgentState :=
  let st := { st with timer_scheduled := false }
  if st.is_eod_squaring_off then st
  else { st with timer_scheduled := true }

/-- The scheduling skeleton of `TradingAgent.make_decision`
(`trading_agent.py`, lines 111-120 and 205-209): at the start of a cycle,
if the current time has reached the market-close time, take the
liquidation path (when not already latched) and return without running
the per-instrument loop; otherwise run the loop and restart the timer.
Returns the new agent state and whether the per-instrument loop ran. -/
def make_decision_schedule (st : AgentState) (now_ge_close : Bool) :
    AgentState × Bool :=
  if now_ge_close then
    if st.is_eod_squaring_off then (st, false)
    else (square_off_all_positions st, false)
  else
    (start_decision_timer st, true)

/-- A broker position row, with the fields
`TradingAgent.get_portfolio_positions` reads (`trading_agent.py`,
lines 273-276). -/
structure Position where
  instrument_token : String
  quantity : ℤ
  product : String
deriving Repr, DecidableEq

/-- Dictionary insertion `open_positions_dic[instrument_token] = pos`:
overwrite an existing key, else append. -/
def dict_insert (dic : List (String × Position)) (key : String)
    (pos : Position) : List (String × Position) :=
  if dic.any (fun kv => kv.1 = key) then
    dic.map (fun kv => if kv.1 = key then (key, pos) else kv)
  else dic ++ [(key, pos)]

/-- The open-positions dictionary built by
`TradingAgent.get_portfolio_positions` (`trading_agent.py`,
lines 270-278): positions with nonzero quantity and product code `'I'`,
keyed by instrument token. -/
def open_positions_dic (all_positions_data : List Position) :
    List (String × Position) :=
  all_positions_data.foldl
    (fun dic pos =>
      if pos.quantity ≠ 0 ∧ pos.product = "I" then
        dict_insert dic pos.instrument_token pos
      else dic)
    []

/-- The instrument-selection branch of `TradingAgent.make_decision`
(`trading_agent.py`, lines 124-135), abstracted over the instrument
metadata type `α`, the key resolver
(`get_instrument_info_from_instrument_key`, which returns a falsy value
on failure, dropped by `if instrument_to_trade:`) and the result of the
`get_instruments_to_trade` auto-pick/candidate path.  Returns the
instrument list and whether `get_instruments_to_trade` was invoked. -/
def select_instruments {α : Type} (open_positions : List (String × Position))
    (resolve : String → Option α) (instruments_from_selection : List α) :
    List α × Bool :=
  if open_positions = [] then (instruments_from_selection, true)
  else ((open_positions.map Prod.fst).filterMap resolve, false)

/-! ## Concrete fixtures used by witnesses and counterexamples -/

/-- The default risk configuration from `RiskManager.__init__`:
max position 15000, confidence threshold 0.75, 20 trades/day,
2% daily loss cap. -/
def rmEx : RiskConfig := ⟨15000, 3/4, 20, 1/50⟩

/-- Fresh start-of-day risk state. -/
def s0 : RiskState := ⟨0, 0, false⟩

/-- A risk state in which the daily-loss circuit breaker has tripped. -/
def sHalted : RiskState := ⟨0, -2500, true⟩

/-- A risk state that has reached the daily trade cap. -/
def sCap : RiskState := ⟨20, 0, false⟩

/-- A well-formed SELL proposal with confidence above the threshold. -/
def dSell : LLMDecision := ⟨some "SELL", some (9/10), some 1, some 100, 0⟩

/-- A HOLD proposal. -/
def dHold : LLMDecision := ⟨some "HOLD", some (9/10), some 1, some 100, 0⟩

/-- A confident proposal whose `action` field is missing entirely. -/
def dNoAction : LLMDecision := ⟨none, some (9/10), some 1, some 100, 1⟩

/-- A confident BUY proposal with no `current_price` field. -/
def dBuyNoPrice : LLMDecision := ⟨some "BUY", some (9/10), some 1, none, 0⟩

/-- A portfolio snapshot. -/
def pEx : Portfolio := ⟨some 100000⟩

/-! ## Theorems -/

/-- C1: `validate_decision` applies its gates in the fixed order
HOLD-reject, halt-reject, trade-count-reject (before the action branch, so
it also rejects a SELL), confidence-reject, SELL-approve without counting,
BUY-approve counting the trade, short-circuiting on the first failure. -/
theorem validate_decision_gate_order (rm : RiskConfig) (s : RiskState)
    (d : LLMDecision) (p : Portfolio) (cp : ℚ) :
    (d.action = some "HOLD" →
      validate_decision rm s d p cp = (false, s)) ∧
    (d.action ≠ some "HOLD" → s.is_trading_halted = true →
      validate_decision rm s d p cp = (false, s)) ∧
    (d.action ≠ some "HOLD" → s.is_trading_halted = false →
      rm.max_trades_per_day ≤ s.trades_today →
      validate_decision rm s d p cp = (false, s)) ∧
    (d.action ≠ some "HOLD" → s.is_trading_halted = false →
      s.trades_today < rm.max_trades_per_day →
      d.confidence_score.getD 0 < rm.min_confidence_threshold →
      validate_decision rm s d p cp = (false, s)) ∧
    (d.action = some "SELL" → s.is_trading_halted = false →
      s.trades_today < rm.max_trades_per_day →
      rm.min_confidence_threshold ≤ d.confidence_score.getD 0 →
      validate_decision rm s d p cp = (true, s)) ∧
    (d.action = some "BUY" → s.is_trading_halted = false →
      s.trades_today < rm.max_trades_per_day →
      rm.min_confidence_threshold ≤ d.confidence_score.getD 0 →
      validate_decision rm s d p cp =
        (true, { s with trades_today := s.trades_today + 1 })) := by
  refine ⟨?_, ?_, ?_, ?_, ?_, ?_⟩
  · intro h
    simp [validate_decision, h]
  · intro h1 h2
    simp [validate_decision, h1, h2]
  · intro h1 h2 h3
    simp [validate_decision, h1, h2, h3]
  · intro h1 h2 h3 h4
    simp [validate_decision, h1, h2, Nat.not_le.mpr h3, h4]
  · intro h1 h2 h3 h4
    simp [validate_decision, h1, h2, Nat.not_le.mpr h3, not_lt.mpr h4]
  · intro h1 h2 h3 h4
    simp [validate_decision, h1, h2, Nat.not_le.mpr h3, not_lt.mpr h4]

/-- Witness for C1: at the daily trade cap, even a confident SELL is
rejected, because the count check precedes the action branch. -/
theorem validate_decision_gate_order_witness :
    validate_decision rmEx sCap dSell pEx 100 = (false, sCap) :=
  (validate_decision_gate_order rmEx sCap dSell pEx 100).2.2.1
    (by decide) (by decide) (by decide)

/-- Once halted, one `update_pnl` call leaves the halt flag set. -/
lemma update_pnl_halted_mono (rm : RiskConfig) (st : RiskState)
    (pnl cap : ℚ) (h : st.is_trading_halted = true) :
    (update_pnl rm st pnl cap).is_trading_halted = true := by
  simp only [update_pnl]
  split_ifs <;> simp [h]

/-- Once halted, any sequence of `update_pnl` calls leaves the flag set. -/
lemma foldl_update_pnl_halted (rm : RiskConfig) (updates : List (ℚ × ℚ)) :
    ∀ st : RiskState, st.is_trading_halted = true →
      (updates.foldl (fun st u => update_pnl rm st u.1 u.2)
        st).is_trading_halted = true := by
  induction updates with
  | nil => intro st h; simpa using h
  | cons u rest ih =>
    intro st h
    simpa using ih _ (update_pnl_halted_mono rm st u.1 u.2 h)

/-- C2: `update_pnl` adds `pnl` to `daily_pnl`, and the halt flag after
the call holds exactly when it already held or the accumulated
`daily_pnl` is strictly below `-(starting_capital * max_daily_loss_pct)`;
from a halted state, no sequence of further `update_pnl` calls ever
clears the flag. -/
theorem update_pnl_halt_latch (rm : RiskConfig) (s : RiskState)
    (pnl starting_capital : ℚ) :
    (update_pnl rm s pnl starting_capital).daily_pnl = s.daily_pnl + pnl ∧
    (update_pnl rm s pnl starting_capital).trades_today = s.trades_today ∧
    (update_pnl rm s pnl starting_capital).is_trading_halted =
      (s.is_trading_halted ||
        decide (s.daily_pnl + pnl <
          -(starting_capital * rm.max_daily_loss_pct))) ∧
    ∀ updates : List (ℚ × ℚ),
      (updates.foldl (fun st u => update_pnl rm st u.1 u.2)
        { s with is_trading_halted := true }).is_trading_halted = true := by
  refine ⟨?_, ?_, ?_, ?_⟩
  · simp only [update_pnl]; split_ifs <;> rfl
  · simp only [update_pnl]; split_ifs <;> rfl
  · simp only [update_pnl]
    split_ifs with h
    · simp [h]
    · simp [h]
  · intro updates
    exact foldl_update_pnl_halted rm updates _ rfl

/-- C3: contrary to the spec, a confident SELL below the trade cap is
rejected by `validate_decision` while `is_trading_halted` is set — the
halt check (Rule 1) fires before the SELL branch, so the circuit breaker
gates closures too, not only new BUY entries. -/
theorem sell_rejected_when_halted :
    sHalted.is_trading_halted = true ∧
    dSell.action = some "SELL" ∧
    rmEx.min_confidence_threshold ≤ dSell.confidence_score.getD 0 ∧
    sHalted.trades_today < rmEx.max_trades_per_day ∧
    validate_decision rmEx sHalted dSell pEx 100 = (false, sHalted) := by
  refine ⟨rfl, rfl, ?_, by decide, by decide⟩
  norm_num [rmEx, dSell]

/-- Every call to `validate_decision` either rejects leaving the state
unchanged, approves leaving the state unchanged, or approves with the
trade count bumped by one. -/
lemma validate_decision_result (rm : RiskConfig) (s : RiskState)
    (d : LLMDecision) (p : Portfolio) (cp : ℚ) :
    validate_decision rm s d p cp = (false, s) ∨
    validate_decision rm s d p cp = (true, s) ∨
    validate_decision rm s d p cp =
      (true, { s with trades_today := s.trades_today + 1 }) := by
  simp only [validate_decision]
  split_ifs <;> simp

/-- C8: a rejection by `validate_decision` leaves the risk state
unchanged, and repeating the same rejected proposal from the resulting
state reproduces the same rejection with no double mutation. -/
theorem validate_decision_reject_pure (rm : RiskConfig) (s : RiskState)
    (d : LLMDecision) (p : Portfolio) (cp : ℚ)
    (h : (validate_decision rm s d p cp).1 = false) :
    (validate_decision rm s d p cp).2 = s ∧
    validate_decision rm (validate_decision rm s d p cp).2 d p cp =
      validate_decision rm s d p cp := by
  rcases validate_decision_result rm s d p cp with hc | hc | hc
  · rw [hc]
    exact ⟨rfl, by rw [hc]⟩
  · rw [hc] at h; simp at h
  · rw [hc] at h; simp at h

/-- Witness for C8: a HOLD proposal is rejected, the state survives, and
a second identical call reproduces the rejection. -/
theorem validate_decision_reject_pure_witness :
    (validate_decision rmEx s0 dHold pEx 100).2 = s0 ∧
    validate_decision rmEx (validate_decision rmEx s0 dHold pEx 100).2
        dHold pEx 100 =
      validate_decision rmEx s0 dHold pEx 100 :=
  validate_decision_reject_pure rmEx s0 dHold pEx 100 (by decide)

/-- C9: any action other than HOLD and SELL — an unrecognized string or a
missing action field alike — that passes the halt, trade-count and
confidence gates is approved by the final catch-all branch, and the trade
count is incremented. -/
theorem validate_decision_catchall (rm : RiskConfig) (s : RiskState)
    (d : LLMDecision) (p : Portfolio) (cp : ℚ)
    (hhold : d.action ≠ some "HOLD") (hsell : d.action ≠ some "SELL")
    (hhalt : s.is_trading_halted = false)
    (hcap : s.trades_today < rm.max_trades_per_day)
    (hconf : rm.min_confidence_threshold ≤ d.confidence_score.getD 0) :
    validate_decision rm s d p cp =
      (true, { s with trades_today := s.trades_today + 1 }) := by
  simp [validate_decision, hhold, hsell, hhalt, Nat.not_le.mpr hcap,
    not_lt.mpr hconf]

/-- Witness for C9: a confident proposal with no action field at all is
approved and counted. -/
theorem validate_decision_catchall_witness :
    validate_decision rmEx s0 dNoAction pEx 100 =
      (true, { s0 with trades_today := s0.trades_today + 1 }) :=
  validate_decision_catchall rmEx s0 dNoAction pEx 100
    (by decide) (by decide) (by decide) (by decide)
    (by norm_num [rmEx, dNoAction])

/-- C7: `calculate_quantity` returns the floor of
`max_position_size / price` for a positive price, `0` for a zero or
negative price, and never changes the risk state. -/
theorem calculate_quantity_spec (rm : RiskConfig) (s : RiskState)
    (price : ℚ) :
    (0 < price →
      calculate_quantity rm s price =
        (⌊rm.max_position_size / price⌋, s)) ∧
    (price ≤ 0 → calculate_quantity rm s price = (0, s)) ∧
    (calculate_quantity rm s price).2 = s := by
  refine ⟨?_, ?_, ?_⟩
  · intro h
    simp [calculate_quantity, not_le.mpr h]
  · intro h
    simp [calculate_quantity, h]
  · unfold calculate_quantity
    split <;> rfl

/-- Witness for C7: at price 7, the sizing yields ⌊15000/7⌋ = 2142 shares
and the state is untouched; at price 0 and at a negative price it yields
0 shares. -/
theorem calculate_quantity_spec_witness :
    calculate_quantity rmEx s0 7 = (2142, s0) ∧
    calculate_quantity rmEx s0 0 = (0, s0) ∧
    calculate_quantity rmEx s0 (-3) = (0, s0) := by
  refine ⟨?_, ?_, ?_⟩
  · rw [(calculate_quantity_spec rmEx s0 7).1 (by norm_num)]
    norm_num [rmEx, Int.floor_eq_iff]
  · exact (calculate_quantity_spec rmEx s0 0).2.1 (by norm_num)
  · exact (calculate_quantity_spec rmEx s0 (-3)).2.1 (by norm_num)

/-- C4: contrary to the spec, a malformed decision is not skipped — the
malformed-decision guard ends in `pass`, so control falls through.  An
empty (`None`) decision raises `AttributeError` at
`llm_decision.get('action')`, aborting the whole cycle; a nonempty
decision missing the `action` field falls through into risk validation
and even consumes a trade-count slot via the catch-all approval. -/
theorem malformed_decision_not_skipped :
    process_llm_decision rmEx s0 none pEx = .error .attributeError ∧
    process_llm_decision rmEx s0 (some dNoAction) pEx =
      .ok ({ s0 with trades_today := 1 }, false) := by
  constructor
  · rfl
  · norm_num [process_llm_decision, validate_decision,
      LLMDecision.isTruthy, execute_trade, rmEx, dNoAction, s0, pEx]
    rfl

/-- C10: a BUY that passes every risk gate but carries no usable
`current_price` (missing field or 0) is approved — incrementing
`trades_today` — yet no order reaches the brokerage, because the
orchestrator checks the price only after `validate_decision` has run. -/
theorem buy_counted_without_order (rm : RiskConfig) (s : RiskState)
    (d : LLMDecision) (p : Portfolio)
    (haction : d.action = some "BUY")
    (hprice : d.current_price.getD 0 = 0)
    (hhalt : s.is_trading_halted = false)
    (hcap : s.trades_today < rm.max_trades_per_day)
    (hconf : rm.min_confidence_threshold ≤ d.confidence_score.getD 0) :
    process_llm_decision rm s (some d) p =
      .ok ({ s with trades_today := s.trades_today + 1 }, false) := by
  have htruthy : d.isTruthy = true := by
    simp [LLMDecision.isTruthy, haction]
  have hv : validate_decision rm s d p 0 =
      (true, { s with trades_today := s.trades_today + 1 }) :=
    validate_decision_catchall rm s d p 0 (by simp [haction])
      (by simp [haction]) hhalt hcap hconf
  simp [process_llm_decision, htruthy, hprice, hv]

/-- Witness for C10: a confident BUY with no `current_price` field is
counted (`trades_today` becomes 1) while no order is placed. -/
theorem buy_counted_without_order_witness :
    process_llm_decision rmEx s0 (some dBuyNoPrice) pEx =
      .ok ({ s0 with trades_today := s0.trades_today + 1 }, false) :=
  buy_counted_without_order rmEx s0 dBuyNoPrice pEx
    (by decide) (by decide) (by decide) (by decide)
    (by norm_num [rmEx, dBuyNoPrice])

/-- A scheduler step from a latched, timer-free state stays latched and
timer-free. -/
lemma schedule_step_inv (st : AgentState) (b : Bool)
    (h1 : st.is_eod_squaring_off = true) (h2 : st.timer_scheduled = false) :
    (make_decision_schedule st b).1.is_eod_squaring_off = true ∧
    (make_decision_schedule st b).1.timer_scheduled = false := by
  cases b <;>
    simp [make_decision_schedule, start_decision_timer,
      square_off_all_positions, h1, h2]

/-- Any sequence of scheduler steps from a latched, timer-free state
stays latched and timer-free. -/
lemma schedule_foldl_inv (bs : List Bool) :
    ∀ st : AgentState, st.is_eod_squaring_off = true →
      st.timer_scheduled = false →
      ((bs.foldl (fun s c => (make_decision_schedule s c).1)
          st).is_eod_squaring_off = true ∧
       (bs.foldl (fun s c => (make_decision_schedule s c).1)
          st).timer_scheduled = false) := by
  induction bs with
  | nil => intro st h1 h2; exact ⟨h1, h2⟩
  | cons b rest ih =>
    intro st h1 h2
    have hstep := schedule_step_inv st b h1 h2
    simpa using ih _ hstep.1 hstep.2

/-- C5: a cycle starting at or past market close with the EOD latch still
clear takes the liquidation path — the timer is cancelled, all positions
are exited, the agent stops, the per-instrument loop does not run; the
latch is set by the square-off, survives every later scheduler step
(whatever the clock says), and no later step ever schedules a timer. -/
theorem eod_squaring_off_latch (st st2 : AgentState) (b : Bool)
    (bs : List Bool) :
    (make_decision_schedule { st with is_eod_squaring_off := false } true =
      (square_off_all_positions { st with is_eod_squaring_off := false },
        false)) ∧
    (square_off_all_positions st).is_eod_squaring_off = true ∧
    (square_off_all_positions st).timer_scheduled = false ∧
    (square_off_all_positions st).positions_exited = true ∧
    (square_off_all_positions st).stopped = true ∧
    (make_decision_schedule { st with is_eod_squaring_off := true }
      b).1.is_eod_squaring_off = true ∧
    (bs.foldl (fun s c => (make_decision_schedule s c).1)
      (square_off_all_positions st2)).is_eod_squaring_off = true ∧
    (bs.foldl (fun s c => (make_decision_schedule s c).1)
      (square_off_all_positions st2)).timer_scheduled = false := by
  refine ⟨?_, rfl, rfl, rfl, rfl, ?_, ?_, ?_⟩
  · simp [make_decision_schedule]
  · cases b <;>
      simp [make_decision_schedule, start_decision_timer]
  · exact (schedule_foldl_inv bs (square_off_all_positions st2) rfl rfl).1
  · exact (schedule_foldl_inv bs (square_off_all_positions st2) rfl rfl).2

/-- Inserting into the open-positions dictionary never empties it. -/
lemma dict_insert_ne_nil (dic : List (String × Position)) (key : String)
    (pos : Position) : dict_insert dic key pos ≠ [] := by
  unfold dict_insert
  split_ifs with h
  · intro hnil
    rw [List.map_eq_nil_iff] at hnil
    subst hnil
    simp at h
  · simp

/-- If the broker snapshot holds a position with nonzero quantity and
product `'I'`, folding it into any starting dictionary leaves the
dictionary nonempty. -/
lemma open_positions_foldl_ne_nil (l : List Position) :
    ∀ dic : List (String × Position),
      ((∃ p ∈ l, p.quantity ≠ 0 ∧ p.product = "I") ∨ dic ≠ []) →
      l.foldl
        (fun dic pos =>
          if pos.quantity ≠ 0 ∧ pos.product = "I" then
            dict_insert dic pos.instrument_token pos
          else dic) dic ≠ [] := by
  induction l with
  | nil =>
    intro dic h
    rcases h with ⟨p, hp, _⟩ | hne
    · simp at hp
    · simpa using hne
  | cons q rest ih =>
    intro dic h
    simp only [List.foldl_cons]
    by_cases hq : q.quantity ≠ 0 ∧ q.product = "I"
    · rw [if_pos hq]
      exact ih _ (Or.inr (dict_insert_ne_nil dic q.instrument_token q))
    · rw [if_neg hq]
      apply ih
      rcases h with ⟨p, hp, hcond⟩ | hne
      · rcases List.mem_cons.mp hp with rfl | hmem
        · exact absurd hcond hq
        · exact Or.inl ⟨p, hmem, hcond⟩
      · exact Or.inr hne

/-- C6: when the broker snapshot holds at least one open position
(nonzero quantity, product code `'I'`), the cycle's instrument set is
exactly the resolved metadata of the held instruments — keys the resolver
fails on are dropped — and the auto-pick/candidate-selection path
(`get_instruments_to_trade`) is not invoked, whatever it would return. -/
theorem held_positions_bypass_autopick {α : Type}
    (all_positions_data : List Position) (resolve : String → Option α)
    (instruments_from_selection : List α) (p : Position)
    (hp : p ∈ all_positions_data) (hq : p.quantity ≠ 0)
    (hprod : p.product = "I") :
    open_positions_dic all_positions_data ≠ [] ∧
    select_instruments (open_positions_dic all_positions_data) resolve
        instruments_from_selection =
      (((open_positions_dic all_positions_data).map Prod.fst).filterMap
          resolve, false) := by
  have hne : open_positions_dic all_positions_data ≠ [] :=
    open_positions_foldl_ne_nil all_positions_data []
      (Or.inl ⟨p, hp, hq, hprod⟩)
  exact ⟨hne, by simp [select_instruments, hne]⟩

/-- Witness for C6: one held position resolves to its metadata and the
auto-pick result is ignored. -/
theorem held_positions_bypass_autopick_witness :
    open_positions_dic [⟨"TOK1", 5, "I"⟩] ≠ [] ∧
    select_instruments (open_positions_dic [⟨"TOK1", 5, "I"⟩])
        (fun k => if k = "TOK1" then some "META1" else none)
        ["AUTOPICKED"] =
      (((open_positions_dic [⟨"TOK1", 5, "I"⟩]).map Prod.fst).filterMap
          (fun k => if k = "TOK1" then some "META1" else none), false) :=
  held_positions_bypass_autopick [⟨"TOK1", 5, "I"⟩]
    (fun k => if k = "TOK1" then some "META1" else none)
    ["AUTOPICKED"] ⟨"TOK1", 5, "I"⟩ (by decide) (by decide) (by decide)

end Upstox
